import Mathlib

/-!
Shallow embedding of the TDK Lambda G30 power-supply controller
(src/src/tdk_lambda_g30.cpp, src/include/tdk_lambda_g30.h,
src/include/power_supply_interface.h).

C++ `double` values are modeled as `ℚ` (all comparisons and the ramp
arithmetic in the source are ordinary field operations).  C++ `std::string`
wire text is modeled as `List Char`.  A thrown `G30Exception` is modeled by
an error value carrying the throw site; since a C++ exception leaves the
object in the state it had at the throw, every operation returns the
post-call state next to its outcome.  The `ICommunication` port (the source
allows injecting one for testing; the built-in `TcpPort` realises it over a
socket) is modeled as a scripted test double: a log of accepted writes and a
script of successive read results.
-/

namespace TDKLambda

/-- Wire text (`std::string` contents) as a list of characters. -/
abbrev Wire := List Char

/-- One constructor per distinct `throw G30Exception(...)` site reached by the
modeled operations.  `connectionFailed` wraps the inner error like the catch
block of `TDKLambdaG30::connect` wraps `e.what()`; `voltageExceedsLimit` and
`currentExceedsLimit` carry the offending value and the limit that the C++
message interpolates. -/
inductive G30Err where
  | notConnected
  | commNotOpen
  | openFailed
  | writeFailed
  | voltageNegative
  | voltageExceedsLimit (v lim : ℚ)
  | currentNegative
  | currentExceedsLimit (c lim : ℚ)
  | rampRateNotPositive
  | maxVoltageNotPositive
  | maxCurrentNotPositive
  | failedToCommunicate
  | connectionFailed (inner : G30Err)
  | parseFailed (raw : Wire)
  deriving DecidableEq, Repr

/-- Result of a device operation: normal return, a thrown `G30Exception`, or
C++ undefined behavior (`std::string::back()` on an empty string in
`sendCommand`/`sendQuery`). -/
inductive Outcome (α : Type) where
  | ok : α → Outcome α
  | err : G30Err → Outcome α
  | ub : Outcome α
  deriving DecidableEq, Repr

/-- The communication port (`ICommunication`, realised by `TcpPort`).
`openOk` scripts whether `open()` succeeds at the socket level, `writeOk`
whether `write()` is accepted by the OS; `reads` scripts the data each
successive `read()` returns (an exhausted script models a timeout, which per
`TcpPort::read` yields the empty accumulated buffer, not an error);
`writes` logs every string accepted by `write()`. -/
structure Comm where
  isOpen : Bool
  openOk : Bool
  writeOk : Bool
  reads : List Wire
  writes : List Wire
  deriving DecidableEq, Repr

/-- `TcpPort::open`: no-op when already open, otherwise establishes the
connection or throws. -/
def Comm.openPort (c : Comm) : Except G30Err Comm :=
  if c.isOpen then .ok c
  else if c.openOk then .ok { c with isOpen := true }
  else .error .openFailed

/-- `TcpPort::write`: throws when the port is not open or the send fails,
otherwise accepts the data. -/
def Comm.write (c : Comm) (data : Wire) : Except G30Err Comm :=
  if c.isOpen = false then .error .commNotOpen
  else if c.writeOk = false then .error .writeFailed
  else .ok { c with writes := c.writes ++ [data] }

/-- `TcpPort::read`: throws when the port is not open; otherwise returns the
next scripted line, or the empty accumulated buffer on timeout. -/
def Comm.read (c : Comm) : Except G30Err (Wire × Comm) :=
  if c.isOpen = false then .error .commNotOpen
  else
    match c.reads with
    | [] => .ok ([], c)
    | r :: rest => .ok (r, { c with reads := rest })

/-- `TcpPort::close`: idempotent, clears `isOpen`. -/
def Comm.close (c : Comm) : Comm := { c with isOpen := false }

/-- `PowerSupplyStatus` (power_supply_interface.h); its default constructor
sets every flag false. -/
structure PowerSupplyStatus where
  outputEnabled : Bool
  overVoltageProtection : Bool
  overCurrentProtection : Bool
  overPowerProtection : Bool
  overTemperature : Bool
  remoteSensing : Bool
  ccMode : Bool
  cvMode : Bool
  deriving DecidableEq, Repr

/-- The all-false default-constructed `PowerSupplyStatus`. -/
def PowerSupplyStatus.init : PowerSupplyStatus :=
  { outputEnabled := false, overVoltageProtection := false,
    overCurrentProtection := false, overPowerProtection := false,
    overTemperature := false, remoteSensing := false,
    ccMode := false, cvMode := false }

/-- `PowerSupplyCapabilities` (power_supply_interface.h). -/
structure PowerSupplyCapabilities where
  maxVoltage : ℚ
  maxCurrent : ℚ
  maxPower : ℚ
  numberOfChannels : ℤ
  supportsRemoteSensing : Bool
  supportsOVP : Bool
  supportsOCP : Bool
  supportsOPP : Bool
  supportsSequencing : Bool
  deriving DecidableEq, Repr

/-- The `TDKLambdaG30` object state: the owned port, the `connected_` and
`outputEnabled_` flags, the two mutable safety ceilings, whether an error
handler was injected (`errorHandler_` is nullable), and the log of messages
delivered to it (each entry recorded as the wrapped error). -/
structure G30 where
  comm : Comm
  connected : Bool
  outputEnabled : Bool
  maxVoltage : ℚ
  maxCurrent : ℚ
  hasErrorHandler : Bool
  handlerCalls : List G30Err
  deriving DecidableEq, Repr

/-- The `TDKLambdaG30` constructor: not connected, output disabled,
`maxVoltage_ = 30.0`, `maxCurrent_ = 56.0`, no error handler. -/
def mkG30 (comm : Comm) : G30 :=
  { comm := comm, connected := false, outputEnabled := false,
    maxVoltage := 30, maxCurrent := 56,
    hasErrorHandler := false, handlerCalls := [] }

/-- `TDKLambdaG30::isConnected`: `connected_ && commPort_->isOpen()`. -/
def isConnected (s : G30) : Bool := s.connected && s.comm.isOpen

/-- The whitespace set of `trim`: `" \t\n\r"`. -/
def isWsChar (c : Char) : Bool := c = ' ' || c = '\t' || c = '\n' || c = '\r'

/-- `TDKLambdaG30::trim`: drop leading and trailing whitespace (empty result
when the string is all whitespace). -/
def trim (s : Wire) : Wire :=
  ((s.dropWhile isWsChar).reverse.dropWhile isWsChar).reverse

/-- Leading decimal digits of a string, as digit values, with the rest. -/
def spanDigits : Wire → List ℕ × Wire
  | [] => ([], [])
  | c :: rest =>
    if c.isDigit then
      let p := spanDigits rest
      ((c.toNat - 48) :: p.1, p.2)
    else ([], c :: rest)

/-- Value of a big-endian digit list. -/
def digitsToNat (ds : List ℕ) : ℕ := ds.foldl (fun a d => 10 * a + d) 0

/-- Modeled from `std::stod`, restricted to the plain fixed-point decimals
this device produces: an optional sign, then digits with an optional
fractional part (at least one digit overall); trailing characters are
ignored, as `stod` parses the longest valid prefix; `none` when no
conversion is possible (`stod` throws).  Exponents, hexadecimal and
inf/nan forms are not modeled. -/
def parseRat (s : Wire) : Option ℚ :=
  let signAndRest : ℚ × Wire :=
    match s with
    | '-' :: rest => (-1, rest)
    | '+' :: rest => (1, rest)
    | _ => (1, s)
  let intPart := spanDigits signAndRest.2
  let fracDigits : List ℕ :=
    match intPart.2 with
    | '.' :: rest => (spanDigits rest).1
    | _ => []
  if intPart.1.isEmpty ∧ fracDigits.isEmpty then none
  else
    some (signAndRest.1 *
      ((digitsToNat intPart.1 : ℚ) + (digitsToNat fracDigits : ℚ) / 10 ^ fracDigits.length))

/-- `TDKLambdaG30::parseNumericResponse`: trim, then `std::stod`; a failed
conversion becomes a `G30Exception` carrying the raw response. -/
def parseNumericResponse (response : Wire) : Except G30Err ℚ :=
  match parseRat (trim response) with
  | some v => .ok v
  | none => .error (.parseFailed response)

/-- `static_cast<int>` of a C++ double: truncation toward zero. -/
def cppIntCast (q : ℚ) : ℤ := if 0 ≤ q then ⌊q⌋ else -⌊-q⌋

/-- Bit test `(n & (1 << b)) != 0` on a C++ `int` (two's complement). -/
def cppBitTest (n : ℤ) (b : ℕ) : Bool := ((n.emod (2 ^ (b + 1))).toNat).testBit b

/-- Decimal digits of a natural number. -/
def natDigits (n : ℕ) : Wire := Nat.toDigits 10 n

/-- Left-pad with `'0'` to the given width. -/
def padZeros (s : Wire) (len : ℕ) : Wire := List.replicate (len - s.length) '0' ++ s

/-- Fixed-point rendering with three decimals: models
`oss.precision(3); oss << std::fixed << v` for the nonnegative values that
reach it (every written set-point has passed the nonnegativity validation);
rounds to nearest, half away from zero. -/
def fmtFixed3 (v : ℚ) : Wire :=
  let milli : ℕ := (⌊v * 1000 + 1 / 2⌋).toNat
  natDigits (milli / 1000) ++ ['.'] ++ padZeros (natDigits (milli % 1000)) 3

/-- The `"VOLT <v>\n"` command text built by `setVoltage`. -/
def voltCmd (v : ℚ) : Wire := ("VOLT ".toList) ++ fmtFixed3 v ++ ['\n']

/-- The `"CURR <c>\n"` command text built by `setCurrent`. -/
def currCmd (c : ℚ) : Wire := ("CURR ".toList) ++ fmtFixed3 c ++ ['\n']

/-- `"*IDN?"` -/
def cmdIDN : Wire := "*IDN?".toList

/-- `"*RST\n"` -/
def cmdRST : Wire := "*RST\n".toList

/-- `"*CLS\n"` -/
def cmdCLS : Wire := "*CLS\n".toList

/-- `"OUTP ON\n"` -/
def cmdOutpOn : Wire := "OUTP ON\n".toList

/-- `"OUTP OFF\n"` -/
def cmdOutpOff : Wire := "OUTP OFF\n".toList

/-- `"OUTP?"` -/
def qOutp : Wire := "OUTP?".toList

/-- `"VOLT?"` -/
def qVolt : Wire := "VOLT?".toList

/-- `"CURR?"` -/
def qCurr : Wire := "CURR?".toList

/-- `"STAT:QUES?"` -/
def qStatQues : Wire := "STAT:QUES?".toList

/-- `"1"` -/
def strOne : Wire := "1".toList

/-- `"ON"` -/
def strON : Wire := "ON".toList

/-- `TDKLambdaG30::sendQuery`: rejected only when neither connected nor the
port open (so it is usable during the connect handshake); then appends the
line terminator — `.ub` models the undefined `cmd.back()` on an empty
string — writes, waits the settle delay (no observable effect here), does
one read and returns the trimmed response, with no emptiness check. -/
def sendQuery (s : G30) (query : Wire) : Outcome Wire × G30 :=
  if isConnected s = false ∧ s.comm.isOpen = false then (.err .notConnected, s)
  else
    match query.getLast? with
    | none => (.ub, s)
    | some c =>
      let cmd := if c = '\n' then query else query ++ ['\n']
      match s.comm.write cmd with
      | .error e => (.err e, s)
      | .ok c1 =>
        match c1.read with
        | .error e => (.err e, { s with comm := c1 })
        | .ok p => (.ok (trim p.1), { s with comm := p.2 })

/-- `TDKLambdaG30::sendCommand`: requires `isConnected`, appends the line
terminator (`.ub` for the empty string), writes, and returns the fixed
acknowledgment `"OK"` without reading. -/
def sendCommand (s : G30) (command : Wire) : Outcome Wire × G30 :=
  if isConnected s = false then (.err .notConnected, s)
  else
    match command.getLast? with
    | none => (.ub, s)
    | some c =>
      let cmd := if c = '\n' then command else command ++ ['\n']
      match s.comm.write cmd with
      | .error e => (.err e, s)
      | .ok c1 => (.ok ("OK".toList), { s with comm := c1 })

/-- `TDKLambdaG30::getIdentification`: same reachability condition as
`sendQuery`, then queries `*IDN?`. -/
def getIdentification (s : G30) : Outcome Wire × G30 :=
  if isConnected s = false ∧ s.comm.isOpen = false then (.err .notConnected, s)
  else sendQuery s cmdIDN

/-- `TDKLambdaG30::validateVoltage`: the error it throws, if any. -/
def validateVoltage (s : G30) (voltage : ℚ) : Option G30Err :=
  if voltage < 0 then some .voltageNegative
  else if s.maxVoltage < voltage then some (.voltageExceedsLimit voltage s.maxVoltage)
  else none

/-- `TDKLambdaG30::validateCurrent`: the error it throws, if any. -/
def validateCurrent (s : G30) (current : ℚ) : Option G30Err :=
  if current < 0 then some .currentNegative
  else if s.maxCurrent < current then some (.currentExceedsLimit current s.maxCurrent)
  else none

/-- `TDKLambdaG30::setVoltage`: validates the value first, then requires
`isConnected`, then writes `"VOLT <v>\n"` directly on the port. -/
def setVoltage (s : G30) (voltage : ℚ) : Outcome Unit × G30 :=
  match validateVoltage s voltage with
  | some e => (.err e, s)
  | none =>
    if isConnected s = false then (.err .notConnected, s)
    else
      match s.comm.write (voltCmd voltage) with
      | .error e => (.err e, s)
      | .ok c1 => (.ok (), { s with comm := c1 })

/-- `TDKLambdaG30::setCurrent`: validates first, then requires `isConnected`,
then writes `"CURR <c>\n"`. -/
def setCurrent (s : G30) (current : ℚ) : Outcome Unit × G30 :=
  match validateCurrent s current with
  | some e => (.err e, s)
  | none =>
    if isConnected s = false then (.err .notConnected, s)
    else
      match s.comm.write (currCmd current) with
      | .error e => (.err e, s)
      | .ok c1 => (.ok (), { s with comm := c1 })

/-- `TDKLambdaG30::getVoltage`: requires `isConnected`, queries `VOLT?` and
parses the response numerically. -/
def getVoltage (s : G30) : Outcome ℚ × G30 :=
  if isConnected s = false then (.err .notConnected, s)
  else
    match sendQuery s qVolt with
    | (.ok resp, s1) =>
      match parseNumericResponse resp with
      | .ok v => (.ok v, s1)
      | .error e => (.err e, s1)
    | (.err e, s1) => (.err e, s1)
    | (.ub, s1) => (.ub, s1)

/-- `TDKLambdaG30::getCurrent`: requires `isConnected`, queries `CURR?` and
parses the response numerically. -/
def getCurrent (s : G30) : Outcome ℚ × G30 :=
  if isConnected s = false then (.err .notConnected, s)
  else
    match sendQuery s qCurr with
    | (.ok resp, s1) =>
      match parseNumericResponse resp with
      | .ok v => (.ok v, s1)
      | .error e => (.err e, s1)
    | (.err e, s1) => (.err e, s1)
    | (.ub, s1) => (.ub, s1)

/-- The `for` loop of `setVoltageWithRamp`: `n` iterations, each advancing
the running value by `stepVoltage` and issuing `setVoltage` (the 100 ms
sleep has no observable effect here). -/
def rampLoopV : ℕ → G30 → ℚ → ℚ → Outcome Unit × G30
  | 0, s, _, _ => (.ok (), s)
  | n + 1, s, currentVoltage, stepVoltage =>
    let cv := currentVoltage + stepVoltage
    match setVoltage s cv with
    | (.ok _, s1) => rampLoopV n s1 cv stepVoltage
    | (.err e, s1) => (.err e, s1)
    | (.ub, s1) => (.ub, s1)

/-- The `for` loop of `setCurrentWithRamp`. -/
def rampLoopC : ℕ → G30 → ℚ → ℚ → Outcome Unit × G30
  | 0, s, _, _ => (.ok (), s)
  | n + 1, s, currentCurrent, stepCurrent =>
    let cc := currentCurrent + stepCurrent
    match setCurrent s cc with
    | (.ok _, s1) => rampLoopC n s1 cc stepCurrent
    | (.err e, s1) => (.err e, s1)
    | (.ub, s1) => (.ub, s1)

/-- `TDKLambdaG30::setVoltageWithRamp`: validates the target first, rejects a
non-positive rate, reads the current set-point, computes
`steps = |target - current| / rate * 10` and
`stepVoltage = (target - current) / steps`, runs the loop
`static_cast<int>(steps)` times, then issues one final `setVoltage(target)`.
(When `steps = 0` the C++ `stepVoltage` is an unused NaN and the loop body
never runs; `ℚ` division by zero likewise yields an unused value.) -/
def setVoltageWithRamp (s : G30) (voltage rampRate : ℚ) : Outcome Unit × G30 :=
  match validateVoltage s voltage with
  | some e => (.err e, s)
  | none =>
    if rampRate ≤ 0 then (.err .rampRateNotPositive, s)
    else
      match getVoltage s with
      | (.ok currentVoltage, s1) =>
        let difference := |voltage - currentVoltage|
        let steps := difference / rampRate * 10
        let stepVoltage := (voltage - currentVoltage) / steps
        match rampLoopV (cppIntCast steps).toNat s1 currentVoltage stepVoltage with
        | (.ok _, s2) => setVoltage s2 voltage
        | (.err e, s2) => (.err e, s2)
        | (.ub, s2) => (.ub, s2)
      | (.err e, s1) => (.err e, s1)
      | (.ub, s1) => (.ub, s1)

/-- `TDKLambdaG30::setCurrentWithRamp`: same shape as the voltage ramp. -/
def setCurrentWithRamp (s : G30) (current rampRate : ℚ) : Outcome Unit × G30 :=
  match validateCurrent s current with
  | some e => (.err e, s)
  | none =>
    if rampRate ≤ 0 then (.err .rampRateNotPositive, s)
    else
      match getCurrent s with
      | (.ok currentCurrent, s1) =>
        let difference := |current - currentCurrent|
        let steps := difference / rampRate * 10
        let stepCurrent := (current - currentCurrent) / steps
        match rampLoopC (cppIntCast steps).toNat s1 currentCurrent stepCurrent with
        | (.ok _, s2) => setCurrent s2 current
        | (.err e, s2) => (.err e, s2)
        | (.ub, s2) => (.ub, s2)
      | (.err e, s1) => (.err e, s1)
      | (.ub, s1) => (.ub, s1)

/-- `TDKLambdaG30::enableOutput`: requires `isConnected`, writes the
ON/OFF command, and only after the write succeeds records the new local
`outputEnabled_`. -/
def enableOutput (s : G30) (enable : Bool) : Outcome Unit × G30 :=
  if isConnected s = false then (.err .notConnected, s)
  else
    let command := if enable then cmdOutpOn else cmdOutpOff
    match s.comm.write command with
    | .error e => (.err e, s)
    | .ok c1 => (.ok (), { s with comm := c1, outputEnabled := enable })

/-- `TDKLambdaG30::isOutputEnabled`: requires `isConnected`, queries `OUTP?`
and compares the trimmed response against `"1"` and `"ON"`. -/
def isOutputEnabled (s : G30) : Outcome Bool × G30 :=
  if isConnected s = false then (.err .notConnected, s)
  else
    match sendQuery s qOutp with
    | (.ok response, s1) =>
      (.ok ((trim response == strOne) || (trim response == strON)), s1)
    | (.err e, s1) => (.err e, s1)
    | (.ub, s1) => (.ub, s1)

/-- `TDKLambdaG30::reset`: requires `isConnected`, writes `*RST`, and forces
the local `outputEnabled_` to false after the write succeeds. -/
def reset (s : G30) : Outcome Unit × G30 :=
  if isConnected s = false then (.err .notConnected, s)
  else
    match s.comm.write cmdRST with
    | .error e => (.err e, s)
    | .ok c1 => (.ok (), { s with comm := c1, outputEnabled := false })

/-- `TDKLambdaG30::clearProtection`: requires `isConnected`, writes `*CLS`. -/
def clearProtection (s : G30) : Outcome Unit × G30 :=
  if isConnected s = false then (.err .notConnected, s)
  else
    match s.comm.write cmdCLS with
    | .error e => (.err e, s)
    | .ok c1 => (.ok (), { s with comm := c1 })

/-- `TDKLambdaG30::disconnect`: closes the port unconditionally and clears
`connected_`; never throws. -/
def disconnect (s : G30) : G30 :=
  { s with comm := s.comm.close, connected := false }

/-- The try-block of `TDKLambdaG30::connect`: open the TCP port, settle,
query the identification; an empty identification throws; otherwise mark
connected, then reset and clear protection. -/
def connectBody (s : G30) : Outcome Unit × G30 :=
  match s.comm.openPort with
  | .error e => (.err e, s)
  | .ok c0 =>
    match getIdentification { s with comm := c0 } with
    | (.ok id, s1) =>
      if id.isEmpty then (.err .failedToCommunicate, s1)
      else
        match reset { s1 with connected := true } with
        | (.ok _, s3) =>
          match clearProtection s3 with
          | (.ok _, s4) => (.ok (), s4)
          | (.err e, s4) => (.err e, s4)
          | (.ub, s4) => (.ub, s4)
        | (.err e, s3) => (.err e, s3)
        | (.ub, s3) => (.ub, s3)
    | (.err e, s1) => (.err e, s1)
    | (.ub, s1) => (.ub, s1)

/-- `TDKLambdaG30::connect`: a no-op when already connected; otherwise runs
the handshake, and on any thrown error disconnects (closing the port) and
rethrows it wrapped as a connection failure. -/
def connect (s : G30) : Outcome Unit × G30 :=
  if s.connected then (.ok (), s)
  else
    match connectBody s with
    | (.ok _, s1) => (.ok (), s1)
    | (.err e, s1) => (.err (.connectionFailed e), disconnect s1)
    | (.ub, s1) => (.ub, s1)

/-- Deliver a message to the injected error handler when one is set
(`errorHandler_` may be null); the entry records the wrapped error. -/
def callHandler (s : G30) (e : G30Err) : G30 :=
  if s.hasErrorHandler then { s with handlerCalls := s.handlerCalls ++ [e] } else s

/-- `TDKLambdaG30::getStatus`: requires `isConnected`; then, inside one
try-block, reads the output state and the `STAT:QUES?` bit-field into a
default-constructed snapshot; any failure mid-sequence is caught, reported
through the error handler, and the flags decoded so far are returned. -/
def getStatus (s : G30) : Outcome PowerSupplyStatus × G30 :=
  if isConnected s = false then (.err .notConnected, s)
  else
    match isOutputEnabled s with
    | (.ok oe, s1) =>
      let status1 := { PowerSupplyStatus.init with outputEnabled := oe }
      match sendQuery s1 qStatQues with
      | (.ok statQuery, s2) =>
        match parseNumericResponse statQuery with
        | .ok q =>
          let statValue := cppIntCast q
          (.ok { status1 with
                  overVoltageProtection := cppBitTest statValue 0,
                  overCurrentProtection := cppBitTest statValue 1,
                  overTemperature := cppBitTest statValue 4 }, s2)
        | .error e => (.ok status1, callHandler s2 e)
      | (.err e, s2) => (.ok status1, callHandler s2 e)
      | (.ub, s2) => (.ub, s2)
    | (.err e, s1) => (.ok PowerSupplyStatus.init, callHandler s1 e)
    | (.ub, s1) => (.ub, s1)

/-- `TDKLambdaG30::getCapabilities`: built fresh on each call from the
current `maxVoltage_`/`maxCurrent_` fields plus fixed model facts. -/
def getCapabilities (s : G30) : PowerSupplyCapabilities :=
  { maxVoltage := s.maxVoltage, maxCurrent := s.maxCurrent,
    maxPower := s.maxVoltage * s.maxCurrent, numberOfChannels := 1,
    supportsRemoteSensing := false, supportsOVP := true, supportsOCP := true,
    supportsOPP := false, supportsSequencing := false }

/-- `TDKLambdaG30::setMaxVoltage`: rejects non-positive limits, otherwise
updates the ceiling; no connectivity check. -/
def setMaxVoltage (s : G30) (maxVoltage : ℚ) : Outcome Unit × G30 :=
  if maxVoltage ≤ 0 then (.err .maxVoltageNotPositive, s)
  else (.ok (), { s with maxVoltage := maxVoltage })

/-- `TDKLambdaG30::setMaxCurrent`: rejects non-positive limits, otherwise
updates the ceiling; no connectivity check. -/
def setMaxCurrent (s : G30) (maxCurrent : ℚ) : Outcome Unit × G30 :=
  if maxCurrent ≤ 0 then (.err .maxCurrentNotPositive, s)
  else (.ok (), { s with maxCurrent := maxCurrent })

/-- Successive running values visited by the ramp loop: starting from `cv`,
advance `n` times by `sv`. -/
def rampValues : ℕ → ℚ → ℚ → List ℚ
  | 0, _, _ => []
  | n + 1, cv, sv => (cv + sv) :: rampValues n (cv + sv) sv

/-- A connected session over an open port with scripted reads, an injected
error handler, and the constructor's default ceilings. -/
def sessionWith (rs : List Wire) : G30 :=
  { comm := { isOpen := true, openOk := true, writeOk := true, reads := rs, writes := [] },
    connected := true, outputEnabled := false,
    maxVoltage := 30, maxCurrent := 56,
    hasErrorHandler := true, handlerCalls := [] }

/-- An idle port that is not yet open. -/
def commClosed : Comm :=
  { isOpen := false, openOk := true, writeOk := true, reads := [], writes := [] }

/-- An open port with an empty script. -/
def commT : Comm :=
  { isOpen := true, openOk := true, writeOk := true, reads := [], writes := [] }

/-- A non-empty list has a last element. -/
lemma exists_getLast? {α : Type} : ∀ (l : List α), l ≠ [] → ∃ c, l.getLast? = some c
  | [], h => absurd rfl h
  | [a], _ => ⟨a, rfl⟩
  | _ :: b :: l, _ => exists_getLast? (b :: l) (by simp)

/-! ## C1 -/

/-- C1, counterexample: `setMaxVoltage` and `setMaxCurrent` succeed on a
session that was never connected (`connected = false`, port closed), and
even right after a `disconnect`, instead of raising the not-connected
error. -/
theorem setMaxVoltage_succeeds_disconnected :
    (mkG30 commClosed).connected = false
    ∧ (setMaxVoltage (mkG30 commClosed) 10).1 = .ok ()
    ∧ (setMaxCurrent (disconnect (mkG30 commClosed)) 20).1 = .ok () := by
  decide

/-- C1, amended: operations such as `setVoltage`, `enableOutput`, `reset`
and `getStatus` raise the not-connected error whenever `isConnected` is
false; `sendQuery` and `getIdentification` raise it only when additionally
the port is not open (in particular always after `disconnect`); and
`setMaxVoltage`/`setMaxCurrent` perform no connectivity check at all and
succeed on any positive limit. -/
theorem notConnected_rejection_profile (s : G30) (q : Wire) (v m : ℚ)
    (hconn : isConnected s = false)
    (hv0 : 0 ≤ v) (hv1 : v ≤ s.maxVoltage) (hm : 0 < m) :
    (setVoltage s v).1 = .err .notConnected
    ∧ (enableOutput s true).1 = .err .notConnected
    ∧ (reset s).1 = .err .notConnected
    ∧ (getStatus s).1 = .err .notConnected
    ∧ (sendQuery (disconnect s) q).1 = .err .notConnected
    ∧ (getIdentification (disconnect s)).1 = .err .notConnected
    ∧ (setMaxVoltage s m).1 = .ok ()
    ∧ (setMaxCurrent s m).1 = .ok () := by
  have hdis : isConnected (disconnect s) = false := by
    simp [isConnected, disconnect, Comm.close]
  refine ⟨?_, ?_, ?_, ?_, ?_, ?_, ?_, ?_⟩
  · simp [setVoltage, validateVoltage, hconn, not_lt.mpr hv0, not_lt.mpr hv1]
  · simp [enableOutput, hconn]
  · simp [reset, hconn]
  · simp [getStatus, hconn]
  · simp [sendQuery, isConnected, disconnect, Comm.close]
  · simp [getIdentification, sendQuery, isConnected, disconnect, Comm.close]
  · simp [setMaxVoltage, not_le.mpr hm]
  · simp [setMaxCurrent, not_le.mpr hm]

/-- C1, witness for the amended theorem at a freshly constructed (never
connected) session over an open port. -/
theorem notConnected_rejection_profile_witness :
    (isConnected (mkG30 commT) = false
      ∧ (0:ℚ) ≤ 5 ∧ (5:ℚ) ≤ (mkG30 commT).maxVoltage ∧ (0:ℚ) < 10)
    ∧ ((setVoltage (mkG30 commT) 5).1 = .err .notConnected
      ∧ (enableOutput (mkG30 commT) true).1 = .err .notConnected
      ∧ (reset (mkG30 commT)).1 = .err .notConnected
      ∧ (getStatus (mkG30 commT)).1 = .err .notConnected
      ∧ (sendQuery (disconnect (mkG30 commT)) cmdIDN).1 = .err .notConnected
      ∧ (getIdentification (disconnect (mkG30 commT))).1 = .err .notConnected
      ∧ (setMaxVoltage (mkG30 commT) 10).1 = .ok ()
      ∧ (setMaxCurrent (mkG30 commT) 10).1 = .ok ()) :=
  ⟨⟨by decide, by decide, by decide, by decide⟩,
   notConnected_rejection_profile (mkG30 commT) cmdIDN 5 10
     (by decide) (by decide) (by decide) (by decide)⟩

/-! ## C2 -/

/-- C2, counterexample: on a connected session whose port read yields an
all-whitespace line (and likewise a zero-byte read), `sendQuery` returns
the empty string normally instead of raising a protocol error. -/
theorem sendQuery_empty_read_no_raise :
    (sendQuery (sessionWith [(" \r\n".toList)]) cmdIDN).1 = .ok []
    ∧ (sendQuery (sessionWith [[]]) cmdIDN).1 = .ok [] := by
  decide

/-- C2, amended: whenever the port is open, the write is accepted and the
read yields text that trims to nothing (all-whitespace or zero bytes),
`sendQuery` performs no emptiness check and returns the empty string to
the caller; detecting emptiness is left to callers such as `connect`. -/
theorem sendQuery_empty_read_yields_empty_ok (s : G30) (q r : Wire)
    (rest : List Wire) (c : Char)
    (ho : s.comm.isOpen = true) (hw : s.comm.writeOk = true)
    (hreads : s.comm.reads = r :: rest) (hr : trim r = [])
    (hq : q.getLast? = some c) :
    (sendQuery s q).1 = .ok [] := by
  have hnc : ¬ (isConnected s = false ∧ s.comm.isOpen = false) := by simp [ho]
  by_cases hc : c = '\n' <;>
    simp [sendQuery, hq, hc, Comm.write, Comm.read, ho, hw, hreads, hr, hnc]

/-- C2, witness for the amended theorem: a single-space read answered to an
identification query comes back as the empty string. -/
theorem sendQuery_empty_read_yields_empty_ok_witness :
    ((sessionWith [[' ']]).comm.isOpen = true
      ∧ (sessionWith [[' ']]).comm.writeOk = true
      ∧ (sessionWith [[' ']]).comm.reads = [' '] :: []
      ∧ trim [' '] = []
      ∧ cmdIDN.getLast? = some '?')
    ∧ (sendQuery (sessionWith [[' ']]) cmdIDN).1 = .ok [] :=
  ⟨⟨by decide, by decide, by decide, by decide, by decide⟩,
   sendQuery_empty_read_yields_empty_ok (sessionWith [[' ']]) cmdIDN [' '] [] '?'
     (by decide) (by decide) (by decide) (by decide) (by decide)⟩

/-! ## C3 -/

/-- C3: a negative or ceiling-exceeding value makes `setVoltage` throw the
corresponding validation error (the excess case names the offending value
and bound) with the state — in particular the transport write log —
completely unchanged; symmetrically for `setCurrent`. -/
theorem limit_exceeded_before_any_write (s : G30) (v c : ℚ)
    (hv : v < 0 ∨ s.maxVoltage < v) (hc : c < 0 ∨ s.maxCurrent < c) :
    setVoltage s v
      = (.err (if v < 0 then .voltageNegative else .voltageExceedsLimit v s.maxVoltage), s)
    ∧ setCurrent s c
      = (.err (if c < 0 then .currentNegative else .currentExceedsLimit c s.maxCurrent), s)
    ∧ (setVoltage s v).2.comm.writes = s.comm.writes
    ∧ (setCurrent s c).2.comm.writes = s.comm.writes := by
  have h1 : setVoltage s v
      = (.err (if v < 0 then .voltageNegative else .voltageExceedsLimit v s.maxVoltage), s) := by
    by_cases hv0 : v < 0
    · simp [setVoltage, validateVoltage, hv0]
    · have hm := hv.resolve_left hv0
      simp [setVoltage, validateVoltage, hv0, hm]
  have h2 : setCurrent s c
      = (.err (if c < 0 then .currentNegative else .currentExceedsLimit c s.maxCurrent), s) := by
    by_cases hc0 : c < 0
    · simp [setCurrent, validateCurrent, hc0]
    · have hm := hc.resolve_left hc0
      simp [setCurrent, validateCurrent, hc0, hm]
  exact ⟨h1, h2, by rw [h1], by rw [h2]⟩

/-- C3, witness at `v = -1` (negative) and `c = 100` (above the default
56 A ceiling) on a connected session. -/
theorem limit_exceeded_before_any_write_witness :
    (((-1:ℚ) < 0 ∨ (sessionWith []).maxVoltage < -1)
      ∧ ((100:ℚ) < 0 ∨ (sessionWith []).maxCurrent < 100))
    ∧ (setVoltage (sessionWith []) (-1)
        = (.err (if (-1:ℚ) < 0 then .voltageNegative
                 else .voltageExceedsLimit (-1) (sessionWith []).maxVoltage), sessionWith [])
      ∧ setCurrent (sessionWith []) 100
        = (.err (if (100:ℚ) < 0 then .currentNegative
                 else .currentExceedsLimit 100 (sessionWith []).maxCurrent), sessionWith [])
      ∧ (setVoltage (sessionWith []) (-1)).2.comm.writes = (sessionWith []).comm.writes
      ∧ (setCurrent (sessionWith []) 100).2.comm.writes = (sessionWith []).comm.writes) :=
  ⟨⟨Or.inl (by norm_num), Or.inr (by decide)⟩,
   limit_exceeded_before_any_write (sessionWith []) (-1) 100
     (Or.inl (by norm_num)) (Or.inr (by decide))⟩

/-! ## C9 -/

/-- C9, counterexample: the capability descriptor is not fixed over a
session's lifetime — a successful `setMaxVoltage` changes the
`maxVoltage` (and `maxPower`) it reports. -/
theorem capabilities_change_after_setMaxVoltage :
    getCapabilities ((setMaxVoltage (mkG30 commT) 10).2) ≠ getCapabilities (mkG30 commT) := by
  decide

/-- C9, amended: `getCapabilities` is rebuilt on every call from the
mutable safety ceilings: after a successful `setMaxVoltage m` (resp.
`setMaxCurrent m`) the reported max voltage (resp. current) equals `m` and
the max power tracks the product, while the channel count and the
protection-feature flags stay at their fixed model values. -/
theorem capabilities_track_mutable_ceilings (s : G30) (m : ℚ) (hm : 0 < m) :
    getCapabilities (setMaxVoltage s m).2
      = { maxVoltage := m, maxCurrent := s.maxCurrent, maxPower := m * s.maxCurrent,
          numberOfChannels := 1, supportsRemoteSensing := false, supportsOVP := true,
          supportsOCP := true, supportsOPP := false, supportsSequencing := false }
    ∧ getCapabilities (setMaxCurrent s m).2
      = { maxVoltage := s.maxVoltage, maxCurrent := m, maxPower := s.maxVoltage * m,
          numberOfChannels := 1, supportsRemoteSensing := false, supportsOVP := true,
          supportsOCP := true, supportsOPP := false, supportsSequencing := false } := by
  constructor <;> simp [getCapabilities, setMaxVoltage, setMaxCurrent, not_le.mpr hm]

/-- C9, witness for the amended theorem at `m = 10` on a fresh session. -/
theorem capabilities_track_mutable_ceilings_witness :
    (0:ℚ) < 10
    ∧ (getCapabilities (setMaxVoltage (mkG30 commT) 10).2
        = { maxVoltage := 10, maxCurrent := (mkG30 commT).maxCurrent,
            maxPower := 10 * (mkG30 commT).maxCurrent,
            numberOfChannels := 1, supportsRemoteSensing := false, supportsOVP := true,
            supportsOCP := true, supportsOPP := false, supportsSequencing := false }
      ∧ getCapabilities (setMaxCurrent (mkG30 commT) 10).2
        = { maxVoltage := (mkG30 commT).maxVoltage, maxCurrent := 10,
            maxPower := (mkG30 commT).maxVoltage * 10,
            numberOfChannels := 1, supportsRemoteSensing := false, supportsOVP := true,
            supportsOCP := true, supportsOPP := false, supportsSequencing := false }) :=
  ⟨by decide, capabilities_track_mutable_ceilings (mkG30 commT) 10 (by decide)⟩

/-! ## C10 -/

/-- C10: on a connected session, `sendCommand` and `sendQuery` hit the
undefined `std::string::back()` exactly on the empty input — modeled as the
`.ub` outcome — while every non-empty input has a defined outcome, so a
total embedding of the two operations needs the precondition that the text
is non-empty. -/
theorem empty_command_text_is_ub (s : G30) (q : Wire)
    (hc : isConnected s = true) (hq : q ≠ []) :
    (sendCommand s []).1 = .ub ∧ (sendQuery s []).1 = .ub
    ∧ (sendCommand s q).1 ≠ .ub ∧ (sendQuery s q).1 ≠ .ub := by
  have hcc : ¬ (isConnected s = false) := by simp [hc]
  have hcq : ¬ (isConnected s = false ∧ s.comm.isOpen = false) := by simp [hc]
  obtain ⟨c, hlast⟩ := exists_getLast? q hq
  refine ⟨by simp [sendCommand, hcc], by simp [sendQuery, hcq], ?_, ?_⟩
  · rcases hW : s.comm.write (if c = '\n' then q else q ++ ['\n']) with e | c1 <;>
      simp [sendCommand, hcc, hlast, hW]
  · rcases hW : s.comm.write (if c = '\n' then q else q ++ ['\n']) with e | c1
    · simp [sendQuery, hcq, hlast, hW]
    · rcases hR : c1.read with e | p <;> simp [sendQuery, hcq, hlast, hW, hR]

/-- C10, witness on a connected session with the identification query as
the non-empty text. -/
theorem empty_command_text_is_ub_witness :
    (isConnected (sessionWith []) = true ∧ cmdIDN ≠ [])
    ∧ ((sendCommand (sessionWith []) []).1 = .ub
      ∧ (sendQuery (sessionWith []) []).1 = .ub
      ∧ (sendCommand (sessionWith []) cmdIDN).1 ≠ .ub
      ∧ (sendQuery (sessionWith []) cmdIDN).1 ≠ .ub) :=
  ⟨⟨by decide, by decide⟩,
   empty_command_text_is_ub (sessionWith []) cmdIDN (by decide) (by decide)⟩

/-! ## C7 -/

/-- C7: the local `outputEnabled` flag tracks only commands that returned
without error — when the transport write fails, `enableOutput` throws with
the whole state (in particular `outputEnabled`) unchanged; a successful
`enableOutput enable` records exactly `enable`; a successful `reset`
forces it to `false`. -/
theorem outputEnabled_tracks_successful_commands (s : G30) (e : Bool)
    (hc : isConnected s = true) (hw : s.comm.writeOk = true) :
    (enableOutput { s with comm := { s.comm with writeOk := false } } e
        = (.err .writeFailed, { s with comm := { s.comm with writeOk := false } })
      ∧ (enableOutput { s with comm := { s.comm with writeOk := false } } e).2.outputEnabled
          = s.outputEnabled)
    ∧ enableOutput s e
        = (.ok (), { s with
            comm := { s.comm with writes := s.comm.writes ++ [if e then cmdOutpOn else cmdOutpOff] },
            outputEnabled := e })
    ∧ reset s
        = (.ok (), { s with
            comm := { s.comm with writes := s.comm.writes ++ [cmdRST] },
            outputEnabled := false }) := by
  have hsplit : s.connected = true ∧ s.comm.isOpen = true := by
    simpa [isConnected, Bool.and_eq_true] using hc
  obtain ⟨hc1, ho⟩ := hsplit
  have h1 : enableOutput { s with comm := { s.comm with writeOk := false } } e
      = (.err .writeFailed, { s with comm := { s.comm with writeOk := false } }) := by
    simp [enableOutput, isConnected, Comm.write, hc1, ho]
  refine ⟨⟨h1, by rw [h1]⟩, ?_, ?_⟩
  · simp [enableOutput, isConnected, Comm.write, hc1, ho, hw]
  · simp [reset, isConnected, Comm.write, hc1, ho, hw]

/-- C7, witness on a connected session, enabling the output. -/
theorem outputEnabled_tracks_successful_commands_witness :
    (isConnected (sessionWith []) = true ∧ (sessionWith []).comm.writeOk = true)
    ∧ ((enableOutput { sessionWith [] with
          comm := { (sessionWith []).comm with writeOk := false } } true
        = (.err .writeFailed, { sessionWith [] with
            comm := { (sessionWith []).comm with writeOk := false } })
      ∧ (enableOutput { sessionWith [] with
          comm := { (sessionWith []).comm with writeOk := false } } true).2.outputEnabled
          = (sessionWith []).outputEnabled)
    ∧ enableOutput (sessionWith []) true
        = (.ok (), { sessionWith [] with
            comm := { (sessionWith []).comm with
              writes := (sessionWith []).comm.writes ++ [if true then cmdOutpOn else cmdOutpOff] },
            outputEnabled := true })
    ∧ reset (sessionWith [])
        = (.ok (), { sessionWith [] with
            comm := { (sessionWith []).comm with
              writes := (sessionWith []).comm.writes ++ [cmdRST] },
            outputEnabled := false })) :=
  ⟨⟨by decide, by decide⟩,
   outputEnabled_tracks_successful_commands (sessionWith []) true (by decide) (by decide)⟩

/-! ## C6 -/

/-- C6: when the identification query inside `connect` comes back as text
that trims to nothing, `connect` throws the wrapped connection failure and
the catch block has already disconnected, so the resulting transport is
closed (`isOpen` false) and the session not connected — no half-open state
survives. -/
theorem failed_connect_leaves_transport_closed (s : G30) (r : Wire) (rest : List Wire)
    (hconn : s.connected = false) (hopen : s.comm.isOpen = false)
    (hok : s.comm.openOk = true) (hw : s.comm.writeOk = true)
    (hreads : s.comm.reads = r :: rest) (hr : trim r = []) :
    (connect s).1 = .err (.connectionFailed .failedToCommunicate)
    ∧ (connect s).2.comm.isOpen = false
    ∧ isConnected (connect s).2 = false := by
  have hlast : cmdIDN.getLast? = some '?' := rfl
  refine ⟨?_, ?_, ?_⟩ <;>
    simp [connect, hconn, connectBody, Comm.openPort, hopen, hok, getIdentification,
          sendQuery, isConnected, hreads, hw, hr, hlast, Comm.write, Comm.read,
          disconnect, Comm.close]

/-- C6, witness: a fresh session over a closed port whose scripted
identification response is a bare newline. -/
theorem failed_connect_leaves_transport_closed_witness :
    ((mkG30 { commClosed with reads := [['\n']] }).connected = false
      ∧ (mkG30 { commClosed with reads := [['\n']] }).comm.isOpen = false
      ∧ (mkG30 { commClosed with reads := [['\n']] }).comm.openOk = true
      ∧ (mkG30 { commClosed with reads := [['\n']] }).comm.writeOk = true
      ∧ (mkG30 { commClosed with reads := [['\n']] }).comm.reads = ['\n'] :: []
      ∧ trim ['\n'] = [])
    ∧ ((connect (mkG30 { commClosed with reads := [['\n']] })).1
          = .err (.connectionFailed .failedToCommunicate)
      ∧ (connect (mkG30 { commClosed with reads := [['\n']] })).2.comm.isOpen = false
      ∧ isConnected (connect (mkG30 { commClosed with reads := [['\n']] })).2 = false) :=
  ⟨⟨by decide, by decide, by decide, by decide, by decide, by decide⟩,
   failed_connect_leaves_transport_closed (mkG30 { commClosed with reads := [['\n']] })
     ['\n'] [] (by decide) (by decide) (by decide) (by decide) (by decide) (by decide)⟩

/-! ## C8 -/

/-- C8: when the `STAT:QUES?` response fails to parse after the
output-state query has succeeded, `getStatus` does not throw: it returns a
snapshot whose `outputEnabled` is the value decoded from the first query
and whose protection flags are all still at their default `false`, and the
injected error handler is invoked exactly once, with the parse failure
naming the offending response. -/
theorem getStatus_best_effort_partial (s : G30) (r1 r2 : Wire) (rest : List Wire)
    (hc : isConnected s = true) (hw : s.comm.writeOk = true)
    (hh : s.hasErrorHandler = true)
    (hreads : s.comm.reads = r1 :: r2 :: rest)
    (hr1 : trim r1 = r1) (hr2 : trim r2 = r2)
    (hfail : parseRat r2 = none) :
    (getStatus s).1
      = .ok { outputEnabled := (r1 == strOne) || (r1 == strON),
              overVoltageProtection := false, overCurrentProtection := false,
              overPowerProtection := false, overTemperature := false,
              remoteSensing := false, ccMode := false, cvMode := false }
    ∧ (getStatus s).2.handlerCalls = s.handlerCalls ++ [.parseFailed r2] := by
  have hsplit : s.connected = true ∧ s.comm.isOpen = true := by
    simpa [isConnected, Bool.and_eq_true] using hc
  obtain ⟨hc1, ho⟩ := hsplit
  have hlast1 : qOutp.getLast? = some '?' := rfl
  have hlast2 : qStatQues.getLast? = some '?' := rfl
  constructor <;>
    simp [getStatus, isOutputEnabled, sendQuery, isConnected, hc1, ho, hw, hreads,
          hlast1, hlast2, Comm.write, Comm.read, hr1, hr2, parseNumericResponse, hfail,
          PowerSupplyStatus.init, callHandler, hh]

/-- C8, witness: first read `"1"` (output on), second read `"x"` (not
numeric). -/
theorem getStatus_best_effort_partial_witness :
    (isConnected (sessionWith [['1'], ['x']]) = true
      ∧ (sessionWith [['1'], ['x']]).comm.writeOk = true
      ∧ (sessionWith [['1'], ['x']]).hasErrorHandler = true
      ∧ (sessionWith [['1'], ['x']]).comm.reads = ['1'] :: ['x'] :: []
      ∧ trim ['1'] = ['1'] ∧ trim ['x'] = ['x'] ∧ parseRat ['x'] = none)
    ∧ ((getStatus (sessionWith [['1'], ['x']])).1
        = .ok { outputEnabled := (['1'] == strOne) || (['1'] == strON),
                overVoltageProtection := false, overCurrentProtection := false,
                overPowerProtection := false, overTemperature := false,
                remoteSensing := false, ccMode := false, cvMode := false }
      ∧ (getStatus (sessionWith [['1'], ['x']])).2.handlerCalls
          = (sessionWith [['1'], ['x']]).handlerCalls ++ [.parseFailed ['x']]) :=
  ⟨⟨by decide, by decide, by decide, by decide, by decide, by decide, by decide⟩,
   getStatus_best_effort_partial (sessionWith [['1'], ['x']]) ['1'] ['x'] []
     (by decide) (by decide) (by decide) (by decide) (by decide) (by decide) (by decide)⟩

/-! ## C4 / C5 machinery -/

/-- A connected session with a working transport accepts an in-range
`setVoltage`, appending exactly one `VOLT` command to the write log. -/
lemma setVoltage_ok (s : G30) (v : ℚ)
    (hc : s.connected = true) (ho : s.comm.isOpen = true) (hw : s.comm.writeOk = true)
    (h0 : 0 ≤ v) (h1 : v ≤ s.maxVoltage) :
    setVoltage s v
      = (.ok (), { s with comm := { s.comm with writes := s.comm.writes ++ [voltCmd v] } }) := by
  simp [setVoltage, validateVoltage, isConnected, Comm.write, hc, ho, hw,
        not_lt.mpr h0, not_lt.mpr h1]

/-- A connected `getVoltage` against a scripted pre-trimmed numeric response:
returns the parsed value, consumes one read and appends the `VOLT?` query
to the write log. -/
lemma getVoltage_ok (s : G30) (r : Wire) (rest : List Wire) (v : ℚ)
    (hc : s.connected = true) (ho : s.comm.isOpen = true) (hw : s.comm.writeOk = true)
    (hreads : s.comm.reads = r :: rest) (hr : trim r = r) (hp : parseRat r = some v) :
    getVoltage s
      = (.ok v, { s with comm := { s.comm with
          reads := rest,
          writes := s.comm.writes ++ [qVolt ++ ['\n']] } }) := by
  have hlast : qVolt.getLast? = some '?' := rfl
  simp [getVoltage, sendQuery, isConnected, hc, ho, hw, hreads, hlast,
        Comm.write, Comm.read, parseNumericResponse, hr, hp]

/-- `rampValues` produces one value per loop iteration. -/
lemma rampValues_length : ∀ (n : ℕ) (cv sv : ℚ), (rampValues n cv sv).length = n
  | 0, _, _ => rfl
  | n + 1, cv, sv => by simp [rampValues, rampValues_length n]

/-- When every intermediate running value stays inside `[0, maxVoltage]` and
the session is connected over a working transport, the ramp loop succeeds
and appends exactly the `VOLT` commands for the successive running values,
leaving every other field unchanged. -/
lemma rampLoopV_ok (n : ℕ) : ∀ (s : G30) (cv sv : ℚ),
    s.connected = true → s.comm.isOpen = true → s.comm.writeOk = true →
    (∀ i : ℕ, i < n → 0 ≤ cv + ((i : ℚ) + 1) * sv ∧ cv + ((i : ℚ) + 1) * sv ≤ s.maxVoltage) →
    rampLoopV n s cv sv
      = (.ok (), { s with comm := { s.comm with
          writes := s.comm.writes ++ (rampValues n cv sv).map voltCmd } }) := by
  induction n with
  | zero => intro s cv sv _ _ _ _; simp [rampLoopV, rampValues]
  | succ n ih =>
    intro s cv sv hc ho hw hvalid
    have h0 := hvalid 0 (Nat.succ_pos n)
    have h0a : 0 ≤ cv + sv := by simpa using h0.1
    have h0b : cv + sv ≤ s.maxVoltage := by simpa using h0.2
    have hset := setVoltage_ok s (cv + sv) hc ho hw h0a h0b
    have hvalid' : ∀ i : ℕ, i < n →
        0 ≤ (cv + sv) + ((i : ℚ) + 1) * sv ∧ (cv + sv) + ((i : ℚ) + 1) * sv ≤ s.maxVoltage := by
      intro i hi
      have h := hvalid (i + 1) (by omega)
      have key : cv + ((i : ℚ) + 1 + 1) * sv = (cv + sv) + ((i : ℚ) + 1) * sv := by ring
      constructor
      · have h' := h.1; push_cast at h'; rw [key] at h'; exact h'
      · have h' := h.2; push_cast at h'; rw [key] at h'; exact h'
    have hrec := ih { s with comm := { s.comm with writes := s.comm.writes ++ [voltCmd (cv + sv)] } }
      (cv + sv) sv hc ho hw hvalid'
    simp only [rampLoopV]
    rw [hset]
    simp only []
    rw [hrec]
    simp [rampValues, List.append_assoc]

/-- Each running value visited by the ramp loop is a convex combination of
the starting value and the target, hence stays inside `[0, maxV]` when both
endpoints do. -/
lemma ramp_value_in_range (current voltage maxV rampRate : ℚ)
    (hcur0 : 0 ≤ current) (hcur1 : current ≤ maxV)
    (hv0 : 0 ≤ voltage) (hv1 : voltage ≤ maxV) (hrate : 0 < rampRate)
    (i : ℕ) (hi : i < (cppIntCast (|voltage - current| / rampRate * 10)).toNat) :
    0 ≤ current + ((i : ℚ) + 1) * ((voltage - current) / (|voltage - current| / rampRate * 10))
    ∧ current + ((i : ℚ) + 1) * ((voltage - current) / (|voltage - current| / rampRate * 10))
        ≤ maxV := by
  set steps := |voltage - current| / rampRate * 10 with hsteps
  by_cases heq : voltage = current
  · exfalso
    have hz : steps = 0 := by simp [hsteps, heq]
    rw [hz] at hi
    simp [cppIntCast] at hi
  · have habs : 0 < |voltage - current| := abs_pos.mpr (sub_ne_zero.mpr heq)
    have hpos : 0 < steps := by
      rw [hsteps]
      have hdiv : 0 < |voltage - current| / rampRate := div_pos habs hrate
      nlinarith
    have hne : steps ≠ 0 := ne_of_gt hpos
    have hstepsnn : 0 ≤ steps := le_of_lt hpos
    have hfloor : cppIntCast steps = ⌊steps⌋ := by simp [cppIntCast, hstepsnn]
    have h1 : (i : ℤ) + 1 ≤ ⌊steps⌋ := by
      rw [hfloor] at hi
      omega
    have hle : ((i : ℚ) + 1) ≤ steps := by
      have h2 : (((i : ℤ) + 1 : ℤ) : ℚ) ≤ ((⌊steps⌋ : ℤ) : ℚ) := by exact_mod_cast h1
      have h3 : ((⌊steps⌋ : ℤ) : ℚ) ≤ steps := Int.floor_le steps
      push_cast at h2
      linarith
    have ht0 : 0 ≤ ((i : ℚ) + 1) / steps := div_nonneg (by positivity) hstepsnn
    have ht1 : ((i : ℚ) + 1) / steps ≤ 1 := (div_le_one hpos).mpr hle
    have hrw : current + ((i : ℚ) + 1) * ((voltage - current) / steps)
        = (1 - ((i : ℚ) + 1) / steps) * current + (((i : ℚ) + 1) / steps) * voltage := by
      field_simp
      ring
    constructor
    · rw [hrw]
      have hA := mul_nonneg (by linarith : (0:ℚ) ≤ 1 - ((i : ℚ) + 1) / steps) hcur0
      have hB := mul_nonneg ht0 hv0
      linarith
    · rw [hrw]
      have hA := mul_le_mul_of_nonneg_left hcur1
        (by linarith : (0:ℚ) ≤ 1 - ((i : ℚ) + 1) / steps)
      have hB := mul_le_mul_of_nonneg_left hv1 ht0
      have hco : (1 - ((i : ℚ) + 1) / steps) * maxV + (((i : ℚ) + 1) / steps) * maxV = maxV := by
        ring
      linarith

/-! ## C4 -/

/-- C4: on a connected session whose scripted set-point read parses to
`current`, with both `current` and the target inside the ceiling and a
positive rate, the ramp computes `steps = |target - current| / rate * 10`,
issues exactly `⌊steps⌋` intermediate `VOLT` writes — one per running value,
each advanced by `stepVoltage = (target - current) / steps` — and then one
final `VOLT` write of the target itself, so the last value sent equals the
target exactly.  (At `current = 5`, `target = 15`, `rate = 2` this makes
`steps = 50`, hence 50 intermediate writes plus the final one: 51 set
commands in total; see the witness.) -/
theorem ramp_floor_steps_then_exact_target
    (s : G30) (r : Wire) (rest : List Wire) (voltage rampRate current steps sv : ℚ) (n : ℕ)
    (hc : s.connected = true) (ho : s.comm.isOpen = true) (hw : s.comm.writeOk = true)
    (hreads : s.comm.reads = r :: rest) (hr : trim r = r) (hp : parseRat r = some current)
    (hcur0 : 0 ≤ current) (hcur1 : current ≤ s.maxVoltage)
    (hv0 : 0 ≤ voltage) (hv1 : voltage ≤ s.maxVoltage) (hrate : 0 < rampRate)
    (hsteps : steps = |voltage - current| / rampRate * 10)
    (hsv : sv = (voltage - current) / steps)
    (hn : n = (cppIntCast steps).toNat) :
    (setVoltageWithRamp s voltage rampRate).1 = .ok ()
    ∧ (setVoltageWithRamp s voltage rampRate).2.comm.writes
        = s.comm.writes ++ [qVolt ++ ['\n']]
            ++ (rampValues n current sv).map voltCmd ++ [voltCmd voltage]
    ∧ (rampValues n current sv).length = n
    ∧ ((setVoltageWithRamp s voltage rampRate).2.comm.writes).getLast?
        = some (voltCmd voltage) := by
  have hval : validateVoltage s voltage = none := by
    simp [validateVoltage, not_lt.mpr hv0, not_lt.mpr hv1]
  have hgv := getVoltage_ok s r rest current hc ho hw hreads hr hp
  have hvalid : ∀ i : ℕ, i < n →
      0 ≤ current + ((i : ℚ) + 1) * sv ∧ current + ((i : ℚ) + 1) * sv ≤ s.maxVoltage := by
    intro i hi
    rw [hn, hsteps] at hi
    have := ramp_value_in_range current voltage s.maxVoltage rampRate
      hcur0 hcur1 hv0 hv1 hrate i hi
    rw [hsv, hsteps]
    exact this
  have hloop := rampLoopV_ok n
    { s with comm := { s.comm with
        reads := rest,
        writes := s.comm.writes ++ [qVolt ++ ['\n']] } }
    current sv hc ho hw hvalid
  have hfin := setVoltage_ok
    { s with comm := { s.comm with
        reads := rest,
        writes := (s.comm.writes ++ [qVolt ++ ['\n']]) ++ (rampValues n current sv).map voltCmd } }
    voltage hc ho hw hv0 hv1
  have hmain : setVoltageWithRamp s voltage rampRate
      = (.ok (), { s with comm := { s.comm with
          reads := rest,
          writes := ((s.comm.writes ++ [qVolt ++ ['\n']])
            ++ (rampValues n current sv).map voltCmd) ++ [voltCmd voltage] } }) := by
    simp only [setVoltageWithRamp, hval]
    rw [if_neg (not_le.mpr hrate)]
    rw [hgv]
    simp only [← hsteps, ← hsv, ← hn]
    rw [hloop]
    simp only []
    rw [hfin]
  refine ⟨by rw [hmain], by rw [hmain], rampValues_length n current sv, ?_⟩
  rw [hmain]
  exact List.getLast?_concat _

/-- C4, witness at `current = 5`, `target = 15`, `rate = 2` on a session
with the default 30 V ceiling: `steps = 50`, so the final write log is the
`VOLT?` query, the 50 intermediate set commands, and the final exact
`setVoltage 15` — 51 set commands in total, the last one being the
target. -/
theorem ramp_floor_steps_then_exact_target_witness :
    ((sessionWith [['5']]).connected = true
      ∧ (sessionWith [['5']]).comm.reads = ['5'] :: []
      ∧ trim ['5'] = ['5'] ∧ parseRat ['5'] = some 5
      ∧ (0:ℚ) ≤ 5 ∧ (5:ℚ) ≤ (sessionWith [['5']]).maxVoltage
      ∧ (0:ℚ) ≤ 15 ∧ (15:ℚ) ≤ (sessionWith [['5']]).maxVoltage
      ∧ (0:ℚ) < 2 ∧ (50:ℚ) = |15 - 5| / 2 * 10
      ∧ (1/5 : ℚ) = (15 - 5) / 50 ∧ (50:ℕ) = (cppIntCast 50).toNat)
    ∧ ((setVoltageWithRamp (sessionWith [['5']]) 15 2).1 = .ok ()
      ∧ (setVoltageWithRamp (sessionWith [['5']]) 15 2).2.comm.writes
          = (sessionWith [['5']]).comm.writes ++ [qVolt ++ ['\n']]
              ++ (rampValues 50 5 (1/5)).map voltCmd ++ [voltCmd 15]
      ∧ (rampValues 50 5 (1/5)).length = 50
      ∧ ((setVoltageWithRamp (sessionWith [['5']]) 15 2).2.comm.writes).getLast?
          = some (voltCmd 15)) :=
  ⟨⟨by decide, by decide, by decide, by simp [parseRat, spanDigits, digitsToNat],
    by decide, by decide, by decide, by decide, by decide, by norm_num,
    by norm_num, by decide⟩,
   ramp_floor_steps_then_exact_target (sessionWith [['5']]) ['5'] [] 15 2 5 50 (1/5) 50
     (by decide) (by decide) (by decide) (by decide) (by decide)
     (by simp [parseRat, spanDigits, digitsToNat])
     (by decide) (by decide) (by decide) (by decide) (by decide)
     (by norm_num) (by norm_num) (by decide)⟩

/-! ## C5 -/

/-- C5, counterexample: a ramp target above the ceiling fails immediately
with the validation error, with the state completely unchanged: no `VOLT?`
query was written and no scripted read consumed, so the failure happens
before the current-value read and the step computation — not at the first
intermediate set call. -/
theorem ramp_out_of_range_target_fails_before_io :
    setVoltageWithRamp (sessionWith [['5']]) 100 2
      = (.err (.voltageExceedsLimit 100 30), sessionWith [['5']])
    ∧ (setVoltageWithRamp (sessionWith [['5']]) 100 2).2.comm.writes = []
    ∧ (setVoltageWithRamp (sessionWith [['5']]) 100 2).2.comm.reads = [['5']] := by
  decide

/-- C5, amended: an out-of-range ramp target IS pre-checked —
`setVoltageWithRamp`/`setCurrentWithRamp` run the same range validation as
a direct set call on the target first, before the rate check, the
current-value query and the step-count computation, so the call throws the
validation error with no transport I/O at all. -/
theorem ramp_target_prevalidated (s : G30) (v c rate : ℚ)
    (hv : v < 0 ∨ s.maxVoltage < v) (hc : c < 0 ∨ s.maxCurrent < c) :
    setVoltageWithRamp s v rate
      = (.err (if v < 0 then .voltageNegative else .voltageExceedsLimit v s.maxVoltage), s)
    ∧ setCurrentWithRamp s c rate
      = (.err (if c < 0 then .currentNegative else .currentExceedsLimit c s.maxCurrent), s) := by
  constructor
  · by_cases hv0 : v < 0
    · simp [setVoltageWithRamp, validateVoltage, hv0]
    · have hm := hv.resolve_left hv0
      simp [setVoltageWithRamp, validateVoltage, hv0, hm]
  · by_cases hc0 : c < 0
    · simp [setCurrentWithRamp, validateCurrent, hc0]
    · have hm := hc.resolve_left hc0
      simp [setCurrentWithRamp, validateCurrent, hc0, hm]

/-- C5, witness for the amended theorem: voltage target 100 V against the
30 V ceiling and current target −1 A, on a connected session. -/
theorem ramp_target_prevalidated_witness :
    (((100:ℚ) < 0 ∨ (sessionWith [['5']]).maxVoltage < 100)
      ∧ ((-1:ℚ) < 0 ∨ (sessionWith [['5']]).maxCurrent < -1))
    ∧ (setVoltageWithRamp (sessionWith [['5']]) 100 2
        = (.err (if (100:ℚ) < 0 then .voltageNegative
                 else .voltageExceedsLimit 100 (sessionWith [['5']]).maxVoltage),
           sessionWith [['5']])
      ∧ setCurrentWithRamp (sessionWith [['5']]) (-1) 2
        = (.err (if (-1:ℚ) < 0 then .currentNegative
                 else .currentExceedsLimit (-1) (sessionWith [['5']]).maxCurrent),
           sessionWith [['5']])) :=
  ⟨⟨Or.inr (by decide), Or.inl (by norm_num)⟩,
   ramp_target_prevalidated (sessionWith [['5']]) 100 (-1) 2
     (Or.inr (by decide)) (Or.inl (by norm_num))⟩

end TDKLambda
